import Mathlib

/-!
# Fleet Action Engine — verification development

Shallow embedding of the fleet-dashboard repository's two classifiers and the
agent's dedup/act loop:

* `src/fleet_agent.py` — `pick`, `parse_date_safe`, `think_actions`,
  `hash_action`, `send_mail`, `act` (the Run Controller's single pass body).
* `src/app.py` — `pick`, `parse_date_safe`, `think_actions` (the dashboard
  classifier).

Modelling conventions:

* A spreadsheet cell is `Cell`: missing/NaN, a number (numeric cells are
  modelled at integer precision, matching the integral mileages and date
  serials the program manipulates), a native datetime, or free text.
* Datetimes are minutes since the civil epoch 1970-01-01 (`Int`); a Python
  `timedelta(days=d)` is `d * 1440` minutes, and `(a - b).days` is floored
  division by 1440 exactly as Python's `timedelta.days` floors.
* Calendar conversion uses the standard civil-calendar day-number algorithm,
  so `relativedelta(years=1)` (clamping 29 Feb) and `strftime("%d %b %Y")`
  are computed exactly.
* External library calls whose behaviour the program does not define are
  parameters gathered in `Py`: pandas' text/number date parsing
  (`pd.to_datetime`), Python `float()` on strings, and `hashlib.sha256`'s
  hex digest.  Both embedded programs share the same `Py`, as both call the
  same libraries.
-/

namespace Fleet

/-! ## Civil calendar arithmetic -/

def isLeap (y : Int) : Bool :=
  y % 4 == 0 && (y % 100 != 0 || y % 400 == 0)

def daysInMonth (y m : Int) : Int :=
  if m == 2 then (if isLeap y then 29 else 28)
  else if m == 4 || m == 6 || m == 9 || m == 11 then 30
  else 31

/-- Day number of a civil date, with day 0 = 1970-01-01 (Howard Hinnant's
`days_from_civil`). -/
def daysFromCivil (y m d : Int) : Int :=
  let y' := if m ≤ 2 then y - 1 else y
  let era := Int.fdiv y' 400
  let yoe := y' - era * 400
  let mp := Int.fmod (m + 9) 12
  let doy := Int.fdiv (153 * mp + 2) 5 + d - 1
  let doe := yoe * 365 + Int.fdiv yoe 4 - Int.fdiv yoe 100 + doy
  era * 146097 + doe - 719468

/-- Inverse of `daysFromCivil` (Hinnant's `civil_from_days`): `(year, month, day)`. -/
def civilFromDays (z0 : Int) : Int × Int × Int :=
  let z := z0 + 719468
  let era := Int.fdiv z 146097
  let doe := z - era * 146097
  let yoe := Int.fdiv (doe - Int.fdiv doe 1460 + Int.fdiv doe 36524 - Int.fdiv doe 146096) 365
  let y := yoe + era * 400
  let doy := doe - (365 * yoe + Int.fdiv yoe 4 - Int.fdiv yoe 100)
  let mp := Int.fdiv (5 * doy + 2) 153
  let d := doy - Int.fdiv (153 * mp + 2) 5 + 1
  let m := mp + (if mp < 10 then 3 else -9)
  (y + (if m ≤ 2 then 1 else 0), m, d)

def minutesPerDay : Int := 1440

def monthAbbr (m : Int) : String :=
  if m == 1 then "Jan" else if m == 2 then "Feb" else if m == 3 then "Mar"
  else if m == 4 then "Apr" else if m == 5 then "May" else if m == 6 then "Jun"
  else if m == 7 then "Jul" else if m == 8 then "Aug" else if m == 9 then "Sep"
  else if m == 10 then "Oct" else if m == 11 then "Nov" else "Dec"

def pad2 (n : Int) : String :=
  if n < 10 then "0" ++ toString n else toString n

def pad4 (n : Int) : String :=
  if n < 10 then "000" ++ toString n
  else if n < 100 then "00" ++ toString n
  else if n < 1000 then "0" ++ toString n
  else toString n

/-- Python `strftime("%d %b %Y")` of a civil day number. -/
def fmtDMYofDay (day : Int) : String :=
  let c := civilFromDays day
  pad2 c.2.2 ++ " " ++ monthAbbr c.2.1 ++ " " ++ toString c.1

/-- Python `strftime("%d %b %Y")` of a minutes timestamp. -/
def fmtDMY (ts : Int) : String :=
  fmtDMYofDay (Int.fdiv ts minutesPerDay)

/-- Python `str(date)` = ISO `YYYY-MM-DD` of a civil day number. -/
def isoOfDay (day : Int) : String :=
  let c := civilFromDays day
  pad4 c.1 ++ "-" ++ pad2 c.2.1 ++ "-" ++ pad2 c.2.2

/-- Python `str(datetime)` = `YYYY-MM-DD HH:MM:SS` of a minutes timestamp
(the embedding carries no seconds). -/
def isoOfTs (ts : Int) : String :=
  let mins := Int.fmod ts minutesPerDay
  isoOfDay (Int.fdiv ts minutesPerDay) ++ " " ++
    pad2 (Int.fdiv mins 60) ++ ":" ++ pad2 (Int.fmod mins 60) ++ ":00"

/-- Model of `dateutil.relativedelta(years=1)`: add one calendar year, clamping the day
of month (29 Feb + 1 year = 28 Feb); the time of day is preserved. -/
def addOneYear (ts : Int) : Int :=
  let day := Int.fdiv ts minutesPerDay
  let rest := Int.fmod ts minutesPerDay
  let c := civilFromDays day
  daysFromCivil (c.1 + 1) c.2.1 (min c.2.2 (daysInMonth (c.1 + 1) c.2.1)) * minutesPerDay + rest

/-! ## Cells, library parameters, date normalizer -/

/-- A raw spreadsheet cell as the classifiers see it via pandas. -/
inductive Cell where
  | none
  | num (n : Int)
  | date (ts : Int)
  | text (s : String)
deriving DecidableEq, Repr

/-- Behaviour of the external Python libraries the source calls but does not
define.  `toDatetimeText` is `pd.to_datetime(s, dayfirst=True, errors="coerce")`
on free text (None for NaT); `toDatetimeNum` is the same call on a number
≤ 20000 (pandas reads it as an epoch offset); `floatOfText` is Python's
`float()` on a string (None when it raises); `sha256hex` is
`hashlib.sha256(·.encode()).hexdigest()`. -/
structure Py where
  toDatetimeText : String → Option Int
  toDatetimeNum : Int → Option Int
  floatOfText : String → Option Int
  sha256hex : String → String

/-- Model of `pd.isna` / `pd.notna` on a cell. -/
def pdNotna : Cell → Bool
  | .none => false
  | _ => true

/-- Python `float(value)` on a cell; `Option.none` models a raised exception
(e.g. `float` of a non-numeric string or of a datetime). -/
def pyFloat (py : Py) : Cell → Option Int
  | .num n => some n
  | .text s => py.floatOfText s
  | _ => Option.none

/-- Python `str(value)` on a cell (`str(nan) = "nan"`). -/
def pyStr : Cell → String
  | .none => "nan"
  | .num n => toString n
  | .date ts => isoOfTs ts
  | .text s => s

/-- Excel's legacy date epoch 1899-12-30 as a civil day number. -/
def excelEpochDay : Int := daysFromCivil 1899 12 30

/-- The function `parse_date_safe` — identical in both source files: NaN → unknown; native
datetime passes through; a number > 20000 is an Excel serial
(1899-12-30 + n days); otherwise pandas text/number parsing, unparsable →
unknown. -/
def parse_date_safe (py : Py) : Cell → Option Int
  | .none => Option.none
  | .date ts => some ts
  | .num n => if n > 20000 then some ((excelEpochDay + n) * minutesPerDay)
              else py.toDatetimeNum n
  | .text s => py.toDatetimeText s

/-! ## Column resolution -/

/-- Embedding of `fleet_agent.pick`: first candidate that occurs (exactly) among the
headers.  The agent's `read_sheet` has already lower-cased and stripped the
header names before `think_actions` runs. -/
def pick (cols : List String) (cands : List String) : Option String :=
  cands.find? (fun c => cols.contains c)

/-- ASCII whitespace for the model of Python `str.strip`. -/
def isSpaceChar (c : Char) : Bool :=
  c = ' ' || c = '\t' || c = '\n' || c = '\r'

/-- Python `str.strip()` (header names are ASCII). -/
def pyTrim (s : String) : String :=
  String.mk (((s.data.dropWhile isSpaceChar).reverse.dropWhile isSpaceChar).reverse)

def lowerChar (c : Char) : Char :=
  if 'A' ≤ c && c ≤ 'Z' then Char.ofNat (c.toNat + 32) else c

/-- Python `str.lower()` (ASCII range). -/
def pyLower (s : String) : String :=
  String.mk (s.data.map lowerChar)

/-- Model of `c.strip().lower()` — the normalization `app.pick` applies to both
headers and aliases. -/
def normKey (s : String) : String := pyLower (pyTrim s)

/-- The last header whose normalized form is `k` — `app.py` builds
`norm = {c.strip().lower(): c for c in cols}`, so a later duplicate key
overwrites an earlier one. -/
def lastMatch (cols : List String) (k : String) : Option String :=
  (cols.filter (fun c => normKey c == k)).getLast?

/-- Embedding of `app.pick`: first alias whose normalized form appears among the
normalized headers, returning the original header name from `norm`. -/
def pickApp (cols : List String) (aliases : List String) : Option String :=
  match aliases.find? (fun a => ((cols.filter (fun c => normKey c == normKey a)).getLast?).isSome) with
  | some a => lastMatch cols (normKey a)
  | Option.none => Option.none

/-- The canonical fields both classifiers resolve. -/
structure FieldMap where
  veh : Option String
  mileage : Option String
  lastSvc : Option String
  interval : Option String
  dueAt : Option String
  mleft : Option String
  lastMot : Option String
  motExp : Option String
  email : Option String
deriving DecidableEq, Repr

/-- Column resolution as in `fleet_agent.think_actions` (alias lists and their
priority order transcribed from the source). -/
def fieldMapAgent (cols : List String) : FieldMap where
  veh := pick cols ["reg", "registration", "vehicle", "vrm"]
  mileage := pick cols ["current mileage", "mileage", "odometer"]
  lastSvc := pick cols ["last service mileage", "service last mileage", "last_service_mileage"]
  interval := pick cols ["service interval (miles)", "service interval"]
  dueAt := pick cols ["service mileage due at", "service_due_at", "service due at"]
  mleft := pick cols ["miles_to_service", "miles to service"]
  lastMot := pick cols ["last mot date", "last mot", "last_mot_date"]
  motExp := pick cols ["mot expiry", "mot date required", "mot due", "mot_due_date"]
  email := pick cols ["email", "manager email", "contact email", "recipient"]

/-- Column resolution as in `app.think_actions`: note the different alias
sets and priority orders (e.g. `"mot date required"` before `"mot expiry"`,
`"service last mileage"` before `"last service mileage"`). -/
def fieldMapApp (cols : List String) : FieldMap where
  veh := pickApp cols ["reg", "registration", "vehicle", "vrm"]
  mileage := pickApp cols ["current mileage", "mileage", "odometer", "current_mileage"]
  lastSvc := pickApp cols ["service last mileage", "last service mileage", "last_service_mileage"]
  interval := pickApp cols ["service interval (miles)", "service interval", "service_interval_miles"]
  dueAt := pickApp cols ["service mileage due at", "service due at", "service_due_at"]
  mleft := pickApp cols ["miles_to_service", "miles to service"]
  lastMot := pickApp cols ["last mot date", "last mot", "last_mot_date"]
  motExp := pickApp cols ["mot date required", "mot expiry", "mot due", "mot_due_date"]
  email := pickApp cols ["email", "manager email", "contact email", "recipient"]

/-! ## Actions and rows -/

/-- One emitted action dict.  `motExpiry` is the `"MOT Expiry"` entry as a
civil day number (the source stores `expiry.date()`); the agent's Service
dict carries `None` and the app's Service dict omits the key — both are
modelled as `none`. -/
structure Action where
  vehicle : String
  action : String
  status : String
  reason : String
  recipient : String
  motExpiry : Option Int
deriving DecidableEq, Repr

/-- A roster row: `row.get(header)` for each header name. -/
abbrev Row := String → Cell

/-- Lookup `row.get(col)` where `col` may be unresolved (`row.get(None)` is NaN-like,
so `pd.notna` of it is false). -/
def getCol (row : Row) : Option String → Cell
  | some c => row c
  | Option.none => Cell.none

/-- The label `str(row.get(veh_col))`, defaulting to Vehicle i+1 — both sources compute the same
vehicle label: the default when the column is unresolved, else `str` of the
cell (including `"nan"` for a missing value). -/
def vehicleOf (row : Row) (vehCol : Option String) (i : Nat) : String :=
  match vehCol with
  | some c => pyStr (row c)
  | Option.none => "Vehicle " ++ toString (i + 1)

/-- Configuration the agent reads from the environment. -/
structure AgentCfg where
  emailDefaultTo : Option String
  dueMiles : Int
  dueDays : Int

/-- Agent recipient resolution:
`str(row.get(email_col))` when the email column resolved and the value is
non-null, else `os.getenv("EMAIL_DEFAULT_TO", "fleet.manager@example.com")`. -/
def recipientAgent (cfg : AgentCfg) (row : Row) (emailCol : Option String) : String :=
  match emailCol with
  | some c =>
    if pdNotna (row c) then pyStr (row c)
    else cfg.emailDefaultTo.getD "fleet.manager@example.com"
  | Option.none => cfg.emailDefaultTo.getD "fleet.manager@example.com"

/-! ## Service decision -/

/-- The guard of the agent's Service rule 1: `miles_to_service_col and
pd.notna(row.get(miles_to_service_col))`. -/
def svcGuard1 (fm : FieldMap) (row : Row) : Bool :=
  fm.mleft.isSome && pdNotna (getCol row fm.mleft)

/-- Rule 2 guard: `service_due_at_col and mileage_col and pd.notna(due_at)
and pd.notna(mileage)`. -/
def svcGuard2 (fm : FieldMap) (row : Row) : Bool :=
  fm.dueAt.isSome && fm.mileage.isSome &&
    pdNotna (getCol row fm.dueAt) && pdNotna (getCol row fm.mileage)

/-- Rule 3 guard: `mileage_col and last_service_mileage_col and
service_interval_col and all(pd.notna(...))`. -/
def svcGuard3 (fm : FieldMap) (row : Row) : Bool :=
  fm.mileage.isSome && fm.lastSvc.isSome && fm.interval.isSome &&
    pdNotna (getCol row fm.mileage) && pdNotna (getCol row fm.lastSvc) &&
    pdNotna (getCol row fm.interval)

/-- The Service block of `fleet_agent.think_actions`: the
`(due_service, status_s, reason_s)` triple.  Each branch classifies and
formats its own reason, exactly as in the source; a `float()` failure
anywhere in the chosen branch raises and is caught (`except` arm), leaving
`due_service = False` with the catch-all reason. -/
def serviceAgent (py : Py) (fm : FieldMap) (row : Row) (dueMiles : Int) :
    Bool × String × String :=
  if svcGuard1 fm row then
    match pyFloat py (getCol row fm.mleft) with
    | Option.none => (false, "", "Insufficient/invalid service data.")
    | some mleft =>
      if mleft ≤ 0 then
        (true, "Due", "Overdue by " ++ toString (-mleft) ++ " miles.")
      else if mleft ≤ dueMiles then
        (true, "Due soon", "Within " ++ toString mleft ++ " miles of service.")
      else
        (false, "", toString mleft ++ " miles remaining to next service.")
  else if svcGuard2 fm row then
    match pyFloat py (getCol row fm.mileage), pyFloat py (getCol row fm.dueAt) with
    | some cur, some due =>
      let mleft := due - cur
      if mleft ≤ 0 then
        (true, "Due", "Overdue by " ++ toString (-mleft) ++ " miles (due at "
          ++ toString due ++ ", current " ++ toString cur ++ ").")
      else if mleft ≤ dueMiles then
        (true, "Due soon", "Within " ++ toString mleft ++ " miles (due at "
          ++ toString due ++ ", current " ++ toString cur ++ ").")
      else
        (false, "", toString mleft ++ " miles remaining (due at " ++ toString due ++ ").")
    | _, _ => (false, "", "Insufficient/invalid service data.")
  else if svcGuard3 fm row then
    match pyFloat py (getCol row fm.mileage), pyFloat py (getCol row fm.lastSvc),
          pyFloat py (getCol row fm.interval) with
    | some cur, some lastv, some intv =>
      let mleft := (lastv + intv) - cur
      if mleft ≤ 0 then
        (true, "Due", "Overdue by " ++ toString (-mleft) ++ " miles (interval "
          ++ toString intv ++ ", last at " ++ toString lastv ++ ").")
      else if mleft ≤ dueMiles then
        (true, "Due soon", "Within " ++ toString mleft ++ " miles (interval "
          ++ toString intv ++ ", last at " ++ toString lastv ++ ").")
      else
        (false, "", toString mleft ++ " miles remaining to next service.")
    | _, _, _ => (false, "", "Insufficient/invalid service data.")
  else
    (false, "", "Missing service data.")

/-- The Service block of `app.think_actions`: first compute `mleft` by the
same tiered fallback (`None` when no rule applies, exception on `float`
failure), then classify once with the rule-1 reason strings. -/
def serviceApp (py : Py) (fm : FieldMap) (row : Row) (dueMiles : Int) :
    Bool × String × String :=
  let mres : Option (Option Int) :=
    if svcGuard1 fm row then
      match pyFloat py (getCol row fm.mleft) with
      | some m => some (some m)
      | Option.none => Option.none
    else if svcGuard2 fm row then
      match pyFloat py (getCol row fm.dueAt), pyFloat py (getCol row fm.mileage) with
      | some due, some cur => some (some (due - cur))
      | _, _ => Option.none
    else if svcGuard3 fm row then
      match pyFloat py (getCol row fm.lastSvc), pyFloat py (getCol row fm.interval),
            pyFloat py (getCol row fm.mileage) with
      | some lastv, some intv, some cur => some (some ((lastv + intv) - cur))
      | _, _, _ => Option.none
    else some Option.none
  match mres with
  | Option.none => (false, "", "Insufficient/invalid service data.")
  | some Option.none => (false, "", "Missing service data.")
  | some (some mleft) =>
    if mleft ≤ 0 then
      (true, "Due", "Overdue by " ++ toString (-mleft) ++ " miles.")
    else if mleft ≤ dueMiles then
      (true, "Due soon", "Within " ++ toString mleft ++ " miles of service.")
    else
      (false, "", toString mleft ++ " miles remaining to next service.")

/-! ## MOT decision -/

/-- MOT expiry computation, identical in both sources: the explicit
MOT-expiry column when resolved and non-null (no fallback if it then fails to
parse), else last-MOT + 1 calendar year when resolved, non-null and
parseable, else none. -/
def motExpiryAgent (py : Py) (fm : FieldMap) (row : Row) : Option Int :=
  if fm.motExp.isSome && pdNotna (getCol row fm.motExp) then
    parse_date_safe py (getCol row fm.motExp)
  else if fm.lastMot.isSome && pdNotna (getCol row fm.lastMot) then
    (parse_date_safe py (getCol row fm.lastMot)).map addOneYear
  else Option.none

/-- The MOT actions a row contributes, shared shape of both sources:
`days_left = (expiry - now).days` (floored), `< 0` → Overdue, `≤ due_days` →
Due soon, else nothing. -/
def motActions (dueDays : Int) (vehicle recipient : String) (expiry? : Option Int)
    (t : Int) : List Action :=
  match expiry? with
  | some expiry =>
    let daysLeft := Int.fdiv (expiry - t) minutesPerDay
    if daysLeft < 0 then
      [{ vehicle := vehicle, action := "MOT", status := "Overdue",
         reason := "Expired " ++ toString (-daysLeft) ++ " days ago on "
           ++ fmtDMY expiry ++ ".",
         recipient := recipient, motExpiry := some (Int.fdiv expiry minutesPerDay) }]
    else if daysLeft ≤ dueDays then
      [{ vehicle := vehicle, action := "MOT", status := "Due soon",
         reason := "Expires in " ++ toString daysLeft ++ " days on "
           ++ fmtDMY expiry ++ ".",
         recipient := recipient, motExpiry := some (Int.fdiv expiry minutesPerDay) }]
    else []
  | Option.none => []

/-! ## Per-row and whole-roster classification -/

/-- One iteration of the agent's row loop: the Service action (appended
first, when due) and then the MOT action, if any. -/
def rowActionsAgent (py : Py) (cfg : AgentCfg) (fm : FieldMap) (row : Row)
    (i : Nat) (t : Int) : List Action :=
  let vehicle := vehicleOf row fm.veh i
  let recipient := recipientAgent cfg row fm.email
  let svc := serviceAgent py fm row cfg.dueMiles
  (if svc.1 then
    [{ vehicle := vehicle, action := "Service", status := svc.2.1,
       reason := svc.2.2, recipient := recipient, motExpiry := Option.none }]
   else []) ++
  motActions cfg.dueDays vehicle recipient (motExpiryAgent py fm row) t

/-- Embedding of `fleet_agent.think_actions`: resolve columns once, then classify each
row in order (`df.iterrows()` yields positional indices 0, 1, ...). -/
def think_actions (py : Py) (cfg : AgentCfg) (cols : List String)
    (rows : List Row) (t : Int) : List Action :=
  let fm := fieldMapAgent cols
  rows.enum.flatMap (fun p => rowActionsAgent py cfg fm p.2 p.1 t)

/-- One iteration of the app's row loop.  Vehicle, MOT logic and reason
strings coincide with the agent's; the recipient default is
`_secret("EMAIL_DEFAULT_TO", "")` (modelled as the resolved string `dflt`)
and the Service reasons are the rule-1 ones throughout.  The app's Service
dict has no `"MOT Expiry"` key, modelled as `none`. -/
def rowActionsApp (py : Py) (dflt : String) (fm : FieldMap) (row : Row)
    (i : Nat) (dueMiles dueDays t : Int) : List Action :=
  let vehicle := vehicleOf row fm.veh i
  let recipient :=
    match fm.email with
    | some c => if pdNotna (row c) then pyStr (row c) else dflt
    | Option.none => dflt
  let svc := serviceApp py fm row dueMiles
  (if svc.1 then
    [{ vehicle := vehicle, action := "Service", status := svc.2.1,
       reason := svc.2.2, recipient := recipient, motExpiry := Option.none }]
   else []) ++
  motActions dueDays vehicle recipient (motExpiryAgent py fm row) t

/-- Embedding of `app.think_actions` (the returned DataFrame's rows, in order). -/
def think_actions_app (py : Py) (dflt : String) (cols : List String)
    (rows : List Row) (dueMiles dueDays t : Int) : List Action :=
  let fm := fieldMapApp cols
  rows.enum.flatMap (fun p => rowActionsApp py dflt fm p.2 p.1 dueMiles dueDays t)

/-! ## Fingerprint, dedup memory, notifier, act -/

/-- The `|`-joined digest input of `hash_action`:
`f"{vehicle}|{action}|{status}|{reason}|{mot_expiry or ''}|{recipient}"`
(`mot_expiry or ''` is the identity on the strings passed here). -/
def hashBase (vehicle action status reason motExpiry recipient : String) : String :=
  vehicle ++ "|" ++ action ++ "|" ++ status ++ "|" ++ reason ++ "|" ++
    (if motExpiry = "" then "" else motExpiry) ++ "|" ++ recipient

/-- Embedding of `fleet_agent.hash_action`: SHA-256 hex digest of `hashBase`. -/
def hash_action (py : Py) (vehicle action status reason motExpiry recipient : String) : String :=
  py.sha256hex (hashBase vehicle action status reason motExpiry recipient)

/-- The string `str(a.get("MOT Expiry") or "")` as `act` passes it to `hash_action` and
stores it: empty for a Service action, ISO date text for an MOT action. -/
def motStr (a : Action) : String :=
  match a.motExpiry with
  | some d => isoOfDay d
  | Option.none => ""

/-- The fingerprint `act` computes for an action. -/
def keyOf (py : Py) (a : Action) : String :=
  hash_action py a.vehicle a.action a.status a.reason (motStr a) a.recipient

/-- One row of the `actions_sent` table (`action_key` is the unique key the
store is indexed by, so it is not repeated in the record). -/
structure SentRecord where
  vehicle : String
  action : String
  status : String
  reason : String
  motExpiry : String
  recipient : String
  sentAt : Int
deriving DecidableEq, Repr

/-- The dedup memory: `action_key` → row (the SQLite `UNIQUE` constraint
makes at most one row per key). -/
abbrev Store := String → Option SentRecord

/-- The dedup check in `act`: send unless a record of this fingerprint
exists with `datetime.now() - last < timedelta(days=suppress_days)`. -/
def shouldSendB (store : Store) (t : Int) (suppressDays : Int) (k : String) : Bool :=
  match store k with
  | some rec => !(t - rec.sentAt < suppressDays * minutesPerDay)
  | Option.none => true

/-- The first loop of `act`: build `actions_to_send` as the `(key, action)`
pairs that pass the dedup check, preserving order. -/
def dedupFilter (py : Py) (store : Store) (t : Int) (suppressDays : Int)
    (actions : List Action) : List (String × Action) :=
  actions.filterMap (fun a =>
    let k := keyOf py a
    if shouldSendB store t suppressDays k then some (k, a) else Option.none)

/-- Embedding of `build_email` (recipient appears in the signature but not the body, as in
the source): subject, body. -/
def build_email (vehicle action status reason recipient : String)
    (motExpiry : Option Int) : String × String :=
  let _ := recipient
  let subject := ("[Fleet] " ++ vehicle ++ ": " ++ action ++ " " ++ status).trim
  let bodyLines :=
    ["Hi team", "", "Vehicle: " ++ vehicle, "Action: " ++ action ++ " (" ++ status ++ ")",
     "Reason: " ++ reason] ++
    (match motExpiry with
     | some d => if action = "MOT" then ["MOT expiry: " ++ fmtDMYofDay d] else []
     | Option.none => []) ++
    ["", "Please schedule this and update the tracker once booked.", "", "Thanks,",
     "AI Fleet Manager"]
  (subject, String.intercalate "\n" bodyLines)

/-- SMTP configuration (`os.getenv` results; `None` = unset) plus the
behaviour of the network send itself, which is outside the program. -/
structure SmtpEnv where
  host : Option String
  user : Option String
  password : Option String
  network : String → String → String → Except String Unit

/-- A Python falsy env value: unset or empty. -/
def falsyEnv : Option String → Bool
  | Option.none => true
  | some s => s = ""

/-- Embedding of `send_mail`: raises unless `SMTP_HOST`, `SMTP_USER`, `SMTP_PASS` are all
set (no check of the recipient), then attempts the network send.
`Except.error` carries the exception text. -/
def send_mail (env : SmtpEnv) (toAddr subject body : String) : Except String Unit :=
  if falsyEnv env.host || falsyEnv env.user || falsyEnv env.password then
    Except.error "SMTP env vars not fully set (SMTP_HOST, SMTP_USER, SMTP_PASS required)."
  else env.network toAddr subject body

/-- The row `INSERT OR REPLACE` writes for `(key, action)` at time `t`. -/
def mkRecord (a : Action) (t : Int) : SentRecord :=
  { vehicle := a.vehicle, action := a.action, status := a.status,
    reason := a.reason, motExpiry := motStr a, recipient := a.recipient, sentAt := t }

/-- Upsert into the memory (`action_key` is unique). -/
def recordOne (store : Store) (k : String) (a : Action) (t : Int) : Store :=
  fun k2 => if k2 = k then some (mkRecord a t) else store k2

/-- What one evaluation pass of `act` produces: the rows persisted to the
report CSV/XLSX, the printed status notes, and the updated memory. -/
structure ActResult where
  report : List Action
  log : List String
  store : Store

/-- Embedding of `fleet_agent.act`: dedup-filter the candidate actions, persist exactly
the surviving ones as the report, then for each survivor attempt delivery
(real send only under `--send`; the `not df.empty` conjunct is from the
source) and unconditionally upsert the memory row. -/
def act (py : Py) (smtp : SmtpEnv) (actions : List Action) (sendEmails : Bool)
    (store : Store) (t : Int) (suppressDays : Int) : ActResult :=
  let toSend := dedupFilter py store t suppressDays actions
  let report := toSend.map (fun ka => ka.2)
  let final := toSend.foldl
    (fun (acc : Store × List String) ka =>
      let k := ka.1
      let a := ka.2
      let eml := build_email a.vehicle a.action a.status a.reason a.recipient a.motExpiry
      let note :=
        if sendEmails && !report.isEmpty then
          match send_mail smtp a.recipient eml.1 eml.2 with
          | Except.ok _ => "EMAIL SENT"
          | Except.error e => "EMAIL FAILED: " ++ e
        else "DRY-RUN (no --send)"
      (recordOne acc.1 k a t,
       (note ++ ": " ++ a.vehicle ++ " " ++ a.action ++ " -> " ++ a.recipient) :: acc.2))
    (store, [])
  { report := report, log := final.2.reverse, store := final.1 }

/-- The body of `once`: classify then act, at the pass instant `t`. -/
def oncePass (py : Py) (cfg : AgentCfg) (smtp : SmtpEnv) (cols : List String)
    (rows : List Row) (send : Bool) (store : Store) (t : Int)
    (suppressDays : Int) : ActResult :=
  act py smtp (think_actions py cfg cols rows t) send store t suppressDays

/-! ## Claim-side definitions

`milesRemaining` renders the Service claim's strict-priority rule chain as a
single partial value, and `motExpirySpec` renders the MOT claim's
expiry-source sentence; each is compared against the embedded source
functions in the theorems below. -/

/-- The Service claim's `milesRemaining`: first applicable rule in priority
order — direct miles-to-service; due-at − current; (last + interval) −
current — `none` when no rule applies or a needed value is non-numeric. -/
def milesRemaining (py : Py) (fm : FieldMap) (row : Row) : Option Int :=
  if svcGuard1 fm row then
    pyFloat py (getCol row fm.mleft)
  else if svcGuard2 fm row then
    match pyFloat py (getCol row fm.dueAt), pyFloat py (getCol row fm.mileage) with
    | some due, some cur => some (due - cur)
    | _, _ => Option.none
  else if svcGuard3 fm row then
    match pyFloat py (getCol row fm.mileage), pyFloat py (getCol row fm.lastSvc),
          pyFloat py (getCol row fm.interval) with
    | some cur, some lastv, some intv => some ((lastv + intv) - cur)
    | _, _, _ => Option.none
  else Option.none

/-- Modelled from the claim's words (C3): expiry from the explicit MOT-expiry
field "when present and parseable, otherwise" from last-MOT + 1 year — i.e.
with fallback also when the explicit field is present but unparseable.  Kept
separate from `motExpiryAgent` (the source), to be compared with it. -/
def motExpirySpec (py : Py) (fm : FieldMap) (row : Row) : Option Int :=
  match (if fm.motExp.isSome && pdNotna (getCol row fm.motExp) then
           parse_date_safe py (getCol row fm.motExp)
         else Option.none) with
  | some e => some e
  | Option.none =>
    if fm.lastMot.isSome && pdNotna (getCol row fm.lastMot) then
      (parse_date_safe py (getCol row fm.lastMot)).map addOneYear
    else Option.none

/-! ## Helper lemmas: the dedup filter and the memory -/

theorem mem_dedupFilter {py : Py} {store : Store} {t w : Int} {actions : List Action}
    {k : String} {a : Action} :
    (k, a) ∈ dedupFilter py store t w actions ↔
      a ∈ actions ∧ k = keyOf py a ∧ shouldSendB store t w (keyOf py a) = true := by
  unfold dedupFilter
  rw [List.mem_filterMap]
  constructor
  · rintro ⟨b, hb, hf⟩
    by_cases h : shouldSendB store t w (keyOf py b) = true
    · simp only [h, if_pos] at hf
      obtain ⟨rfl, rfl⟩ := Prod.mk.injEq .. ▸ (Option.some.injEq .. ▸ hf)
      exact ⟨hb, rfl, h⟩
    · simp only [Bool.not_eq_true] at h
      simp [h] at hf
  · rintro ⟨ha, rfl, hs⟩
    exact ⟨a, ha, by simp [hs]⟩

theorem report_eq_filter (py : Py) (store : Store) (t w : Int) (actions : List Action) :
    (dedupFilter py store t w actions).map (fun ka => ka.2) =
      actions.filter (fun a => shouldSendB store t w (keyOf py a)) := by
  induction actions with
  | nil => rfl
  | cons a tl ih =>
    by_cases h : shouldSendB store t w (keyOf py a) = true
    · simp [dedupFilter, List.filterMap_cons, h, List.filter_cons] at ih ⊢
      exact ih
    · simp only [Bool.not_eq_true] at h
      simp [dedupFilter, List.filterMap_cons, h, List.filter_cons] at ih ⊢
      exact ih

theorem key_of_mem_dedupFilter {py : Py} {store : Store} {t w : Int}
    {actions : List Action} {k : String}
    (h : k ∈ (dedupFilter py store t w actions).map (fun ka => ka.1)) :
    shouldSendB store t w k = true := by
  rw [List.mem_map] at h
  obtain ⟨⟨k', a⟩, hmem, hk⟩ := h
  obtain ⟨-, rfl, hs⟩ := mem_dedupFilter.1 hmem
  exact hk ▸ hs

/-- The store after `act`'s second loop, index form.  The fold in `act`
also threads the log; this lemma strips it. -/
def recordAll (toSend : List (String × Action)) (store : Store) (t : Int) : Store :=
  toSend.foldl (fun st ka => recordOne st ka.1 ka.2 t) store

theorem storeFold_fst (g : (String × Action) → List String → List String)
    (t : Int) :
    ∀ (l : List (String × Action)) (store : Store) (lg : List String),
      (l.foldl (fun (acc : Store × List String) ka =>
        (recordOne acc.1 ka.1 ka.2 t, g ka acc.2)) (store, lg)).1 =
      l.foldl (fun st ka => recordOne st ka.1 ka.2 t) store := by
  intro l
  induction l with
  | nil => intro store lg; rfl
  | cons ka tl ih => intro store lg; exact ih _ _

theorem act_store_eq_recordAll (py : Py) (smtp : SmtpEnv) (actions : List Action)
    (send : Bool) (store : Store) (t w : Int) :
    (act py smtp actions send store t w).store =
      recordAll (dedupFilter py store t w actions) store t := by
  unfold act recordAll
  exact storeFold_fst _ t _ store []

theorem act_report_eq (py : Py) (smtp : SmtpEnv) (actions : List Action)
    (send : Bool) (store : Store) (t w : Int) :
    (act py smtp actions send store t w).report =
      (dedupFilter py store t w actions).map (fun ka => ka.2) := rfl

theorem recordAll_not_mem {toSend : List (String × Action)} {store : Store}
    {t : Int} {k : String} (h : k ∉ toSend.map (fun ka => ka.1)) :
    recordAll toSend store t k = store k := by
  induction toSend generalizing store with
  | nil => rfl
  | cons ka tl ih =>
    simp only [List.map_cons, List.mem_cons, not_or] at h
    rw [recordAll, List.foldl_cons, ← recordAll, ih h.2, recordOne, if_neg h.1]

theorem recordAll_mem {toSend : List (String × Action)} {store : Store}
    {t : Int} {k : String} (h : k ∈ toSend.map (fun ka => ka.1)) :
    ∃ a, (k, a) ∈ toSend ∧ recordAll toSend store t k = some (mkRecord a t) := by
  induction toSend generalizing store with
  | nil => simp at h
  | cons ka tl ih =>
    obtain ⟨k1, a1⟩ := ka
    by_cases htl : k ∈ tl.map (fun ka => ka.1)
    · obtain ⟨a, hmem, hst⟩ := @ih (recordOne store k1 a1 t) htl
      exact ⟨a, List.mem_cons_of_mem _ hmem, hst⟩
    · simp only [List.map_cons, List.mem_cons] at h
      rcases h with h | h
      · subst h
        refine ⟨a1, List.mem_cons_self .., ?_⟩
        rw [recordAll, List.foldl_cons, ← recordAll, recordAll_not_mem htl,
          recordOne, if_pos rfl]
      · exact absurd h htl

theorem shouldSendB_iff {store : Store} {t w : Int} {k : String} :
    shouldSendB store t w k = true ↔
      ¬∃ rec, store k = some rec ∧ t - rec.sentAt < w * minutesPerDay := by
  unfold shouldSendB
  cases h : store k with
  | none => simp
  | some rec => simp [h]

/-! ## Helper lemmas: classification -/

/-- The `(due, status)` outcome the threshold rules dictate for a computed
`milesRemaining`. -/
def svcClassify (m? : Option Int) (dueMiles : Int) : Bool × String :=
  match m? with
  | some m =>
    if m ≤ 0 then (true, "Due")
    else if m ≤ dueMiles then (true, "Due soon")
    else (false, "")
  | Option.none => (false, "")

theorem serviceAgent_classify (py : Py) (fm : FieldMap) (row : Row) (dm : Int) :
    ((serviceAgent py fm row dm).1, (serviceAgent py fm row dm).2.1) =
      svcClassify (milesRemaining py fm row) dm := by
  unfold serviceAgent milesRemaining
  by_cases h1 : svcGuard1 fm row
  · simp only [h1, if_true]
    cases pyFloat py (getCol row fm.mleft) with
    | none => rfl
    | some m => simp only [svcClassify]; split_ifs <;> rfl
  · simp only [h1, Bool.false_eq_true, if_false]
    by_cases h2 : svcGuard2 fm row
    · simp only [h2, if_true]
      cases pyFloat py (getCol row fm.mileage) with
      | none => cases pyFloat py (getCol row fm.dueAt) <;> rfl
      | some cur =>
        cases pyFloat py (getCol row fm.dueAt) with
        | none => rfl
        | some due => simp only [svcClassify]; split_ifs <;> rfl
    · simp only [h2, Bool.false_eq_true, if_false]
      by_cases h3 : svcGuard3 fm row
      · simp only [h3, if_true]
        cases pyFloat py (getCol row fm.mileage) with
        | none =>
          cases pyFloat py (getCol row fm.lastSvc) <;>
            cases pyFloat py (getCol row fm.interval) <;> rfl
        | some cur =>
          cases pyFloat py (getCol row fm.lastSvc) with
          | none => cases pyFloat py (getCol row fm.interval) <;> rfl
          | some lastv =>
            cases pyFloat py (getCol row fm.interval) with
            | none => rfl
            | some intv => simp only [svcClassify]; split_ifs <;> rfl
      · simp only [h3, Bool.false_eq_true, if_false]; rfl

theorem serviceApp_classify (py : Py) (fm : FieldMap) (row : Row) (dm : Int) :
    ((serviceApp py fm row dm).1, (serviceApp py fm row dm).2.1) =
      svcClassify (milesRemaining py fm row) dm := by
  unfold serviceApp milesRemaining
  by_cases h1 : svcGuard1 fm row
  · simp only [h1, if_true]
    cases pyFloat py (getCol row fm.mleft) with
    | none => rfl
    | some m => simp only [svcClassify]; split_ifs <;> rfl
  · simp only [h1, Bool.false_eq_true, if_false]
    by_cases h2 : svcGuard2 fm row
    · simp only [h2, if_true]
      cases pyFloat py (getCol row fm.dueAt) with
      | none => cases pyFloat py (getCol row fm.mileage) <;> rfl
      | some due =>
        cases pyFloat py (getCol row fm.mileage) with
        | none => rfl
        | some cur => simp only [svcClassify]; split_ifs <;> rfl
    · simp only [h2, Bool.false_eq_true, if_false]
      by_cases h3 : svcGuard3 fm row
      · simp only [h3, if_true]
        cases pyFloat py (getCol row fm.lastSvc) with
        | none =>
          cases pyFloat py (getCol row fm.interval) <;>
            cases pyFloat py (getCol row fm.mileage) <;> rfl
        | some lastv =>
          cases pyFloat py (getCol row fm.interval) with
          | none => cases pyFloat py (getCol row fm.mileage) <;> rfl
          | some intv =>
            cases pyFloat py (getCol row fm.mileage) with
            | none => rfl
            | some cur => simp only [svcClassify]; split_ifs <;> rfl
      · simp only [h3, Bool.false_eq_true, if_false]; rfl

theorem motActions_filter_service (dd : Int) (veh rcpt : String)
    (e? : Option Int) (t : Int) :
    (motActions dd veh rcpt e? t).filter (fun a => a.action == "Service") = [] := by
  cases e? with
  | none => rfl
  | some e =>
    by_cases h1 : Int.fdiv (e - t) minutesPerDay < 0
    · simp [motActions, h1]
    · by_cases h2 : Int.fdiv (e - t) minutesPerDay ≤ dd <;> simp [motActions, h1, h2]

theorem motActions_filter_mot (dd : Int) (veh rcpt : String)
    (e? : Option Int) (t : Int) :
    (motActions dd veh rcpt e? t).filter (fun a => a.action == "MOT") =
      motActions dd veh rcpt e? t := by
  cases e? with
  | none => rfl
  | some e =>
    by_cases h1 : Int.fdiv (e - t) minutesPerDay < 0
    · simp [motActions, h1]
    · by_cases h2 : Int.fdiv (e - t) minutesPerDay ≤ dd <;> simp [motActions, h1, h2]

theorem rowActions_service_part (py : Py) (cfg : AgentCfg) (fm : FieldMap)
    (row : Row) (i : Nat) (t : Int) :
    (rowActionsAgent py cfg fm row i t).filter (fun a => a.action == "Service") =
      (if (serviceAgent py fm row cfg.dueMiles).1 then
        [{ vehicle := vehicleOf row fm.veh i, action := "Service",
           status := (serviceAgent py fm row cfg.dueMiles).2.1,
           reason := (serviceAgent py fm row cfg.dueMiles).2.2,
           recipient := recipientAgent cfg row fm.email, motExpiry := Option.none }]
       else []) := by
  unfold rowActionsAgent
  rw [List.filter_append, motActions_filter_service, List.append_nil]
  by_cases h : (serviceAgent py fm row cfg.dueMiles).1 <;> simp [h]

theorem rowActions_mot_part (py : Py) (cfg : AgentCfg) (fm : FieldMap)
    (row : Row) (i : Nat) (t : Int) :
    (rowActionsAgent py cfg fm row i t).filter (fun a => a.action == "MOT") =
      motActions cfg.dueDays (vehicleOf row fm.veh i) (recipientAgent cfg row fm.email)
        (motExpiryAgent py fm row) t := by
  unfold rowActionsAgent
  rw [List.filter_append, motActions_filter_mot]
  by_cases h : (serviceAgent py fm row cfg.dueMiles).1 <;> simp [h]

/-! ## Concrete fixtures for witnesses and counterexamples -/

/-- A concrete `Py` for closed evaluations: no text/number parses succeed and
the digest is the identity (injective, so fingerprints are the base strings). -/
def pyId : Py :=
  { toDatetimeText := fun _ => Option.none, toDatetimeNum := fun _ => Option.none,
    floatOfText := fun _ => Option.none, sha256hex := id }

/-- Default thresholds, no `EMAIL_DEFAULT_TO` in the environment. -/
def cfgStd : AgentCfg := { emailDefaultTo := Option.none, dueMiles := 500, dueDays := 30 }

/-- The instant 2021-01-01 00:00 as a minutes timestamp. -/
def t2021 : Int := 18628 * 1440

/-- An empty dedup memory. -/
def emptyStore : Store := fun _ => Option.none

/-- Roster columns of the spec's Service example. -/
def svcCols : List String := ["reg", "current mileage", "last service mileage", "service interval"]

/-- The spec's Service example row: current 9600, last service 9000, interval 1000. -/
def svcRow : Row := fun h =>
  if h = "reg" then Cell.text "AB12CDE"
  else if h = "current mileage" then Cell.num 9600
  else if h = "last service mileage" then Cell.num 9000
  else if h = "service interval" then Cell.num 1000
  else Cell.none

/-- Columns for the MOT fallback counterexample: explicit expiry present. -/
def cexCols : List String := ["reg", "mot expiry", "last mot date"]

/-- An explicit MOT-expiry cell holding unparseable text, and a last-MOT date
of 11 Jan 2020 (whose +1 year is 10 days after `t2021`). -/
def cexRow : Row := fun h =>
  if h = "reg" then Cell.text "CX65 XYZ"
  else if h = "mot expiry" then Cell.text "notadate"
  else if h = "last mot date" then Cell.date (daysFromCivil 2020 1 11 * 1440)
  else Cell.none

/-! ## C2 — the Service decision -/

/-- C2: per row, the Service decision computes `milesRemaining` by the first
applicable rule in strict priority order (the chain `milesRemaining`);
`milesRemaining ≤ 0` yields exactly one Service action with status `Due`
(the source's label for Due/Overdue), `0 < milesRemaining ≤ dueMilesThreshold`
yields exactly one with status `Due soon` (DueSoon), `> dueMilesThreshold` or
no applicable rule yields none — never more than one Service action or two
statuses for a row. -/
theorem service_decision_correct (py : Py) (cfg : AgentCfg) (cols : List String)
    (row : Row) (i : Nat) (t : Int) (hthr : 0 ≤ cfg.dueMiles) :
    (milesRemaining py (fieldMapAgent cols) row = Option.none →
      (rowActionsAgent py cfg (fieldMapAgent cols) row i t).filter
        (fun a => a.action == "Service") = []) ∧
    (∀ m, milesRemaining py (fieldMapAgent cols) row = some m →
      (m ≤ 0 →
        ∃ r, (rowActionsAgent py cfg (fieldMapAgent cols) row i t).filter
            (fun a => a.action == "Service") =
          [{ vehicle := vehicleOf row (fieldMapAgent cols).veh i, action := "Service",
             status := "Due", reason := r,
             recipient := recipientAgent cfg row (fieldMapAgent cols).email,
             motExpiry := Option.none }]) ∧
      (0 < m → m ≤ cfg.dueMiles →
        ∃ r, (rowActionsAgent py cfg (fieldMapAgent cols) row i t).filter
            (fun a => a.action == "Service") =
          [{ vehicle := vehicleOf row (fieldMapAgent cols).veh i, action := "Service",
             status := "Due soon", reason := r,
             recipient := recipientAgent cfg row (fieldMapAgent cols).email,
             motExpiry := Option.none }]) ∧
      (cfg.dueMiles < m →
        (rowActionsAgent py cfg (fieldMapAgent cols) row i t).filter
          (fun a => a.action == "Service") = [])) := by
  have hc := serviceAgent_classify py (fieldMapAgent cols) row cfg.dueMiles
  have hdue := congrArg Prod.fst hc
  have hst := congrArg Prod.snd hc
  simp only at hdue hst
  have hpart := rowActions_service_part py cfg (fieldMapAgent cols) row i t
  constructor
  · intro hnone
    rw [hnone] at hdue
    simp only [svcClassify] at hdue
    rw [hpart, hdue]
    simp
  · intro m hm
    rw [hm] at hdue hst
    refine ⟨?_, ?_, ?_⟩
    · intro hle
      have hcl : svcClassify (some m) cfg.dueMiles = (true, "Due") := by
        simp [svcClassify, hle]
      rw [hcl] at hdue hst
      refine ⟨(serviceAgent py (fieldMapAgent cols) row cfg.dueMiles).2.2, ?_⟩
      rw [hpart, hdue]
      simp [hst]
    · intro hpos hthr
      have hcl : svcClassify (some m) cfg.dueMiles = (true, "Due soon") := by
        simp [svcClassify, not_le.2 hpos, hthr]
      rw [hcl] at hdue hst
      refine ⟨(serviceAgent py (fieldMapAgent cols) row cfg.dueMiles).2.2, ?_⟩
      rw [hpart, hdue]
      simp [hst]
    · intro hgt
      have hcl : svcClassify (some m) cfg.dueMiles = (false, "") := by
        have h0 : ¬ m ≤ 0 := by omega
        simp [svcClassify, h0, not_le.2 hgt]
      rw [hcl] at hdue
      rw [hpart, hdue]
      simp

/-- Witness for C2 at the spec's example: 9600 current, 9000 last, 1000
interval gives `milesRemaining = 400` and exactly one `Due soon` Service
action. -/
theorem service_decision_witness :
    ∃ r, (rowActionsAgent pyId cfgStd (fieldMapAgent svcCols) svcRow 0 0).filter
        (fun a => a.action == "Service") =
      [{ vehicle := vehicleOf svcRow (fieldMapAgent svcCols).veh 0, action := "Service",
         status := "Due soon", reason := r,
         recipient := recipientAgent cfgStd svcRow (fieldMapAgent svcCols).email,
         motExpiry := Option.none }] :=
  (((service_decision_correct pyId cfgStd svcCols svcRow 0 0 (by decide)).2 400
    (by decide)).2.1 (by decide) (by decide))

/-! ## C3 — the MOT decision -/

/-- C3 (amended): the MOT expiry is taken from the explicit MOT-expiry field
whenever that field is present and non-null — with **no fallback** to the
last-MOT date if the explicit value then fails to parse — and from last-MOT
+ 1 calendar year only when the explicit field is absent or null; given an
expiry, `daysLeft = floor((expiry − now) in days)`; `daysLeft < 0` yields one
Overdue action whose reason states the days elapsed and the expiry date;
`0 ≤ daysLeft ≤ dueDaysThreshold` yields one `Due soon` action whose reason
states the days remaining and the expiry date; larger `daysLeft` yields no
MOT action. -/
theorem mot_decision_correct (py : Py) (cfg : AgentCfg) (cols : List String)
    (row : Row) (i : Nat) (t : Int) (hthr : 0 ≤ cfg.dueDays) :
    ((fieldMapAgent cols).motExp.isSome ∧
        pdNotna (getCol row (fieldMapAgent cols).motExp) = true →
      motExpiryAgent py (fieldMapAgent cols) row =
        parse_date_safe py (getCol row (fieldMapAgent cols).motExp)) ∧
    (motExpiryAgent py (fieldMapAgent cols) row = Option.none →
      (rowActionsAgent py cfg (fieldMapAgent cols) row i t).filter
        (fun a => a.action == "MOT") = []) ∧
    (∀ e, motExpiryAgent py (fieldMapAgent cols) row = some e →
      (Int.fdiv (e - t) minutesPerDay < 0 →
        (rowActionsAgent py cfg (fieldMapAgent cols) row i t).filter
            (fun a => a.action == "MOT") =
          [{ vehicle := vehicleOf row (fieldMapAgent cols).veh i, action := "MOT",
             status := "Overdue",
             reason := "Expired " ++ toString (-(Int.fdiv (e - t) minutesPerDay)) ++
               " days ago on " ++ fmtDMY e ++ ".",
             recipient := recipientAgent cfg row (fieldMapAgent cols).email,
             motExpiry := some (Int.fdiv e minutesPerDay) }]) ∧
      (0 ≤ Int.fdiv (e - t) minutesPerDay →
        Int.fdiv (e - t) minutesPerDay ≤ cfg.dueDays →
        (rowActionsAgent py cfg (fieldMapAgent cols) row i t).filter
            (fun a => a.action == "MOT") =
          [{ vehicle := vehicleOf row (fieldMapAgent cols).veh i, action := "MOT",
             status := "Due soon",
             reason := "Expires in " ++ toString (Int.fdiv (e - t) minutesPerDay) ++
               " days on " ++ fmtDMY e ++ ".",
             recipient := recipientAgent cfg row (fieldMapAgent cols).email,
             motExpiry := some (Int.fdiv e minutesPerDay) }]) ∧
      (cfg.dueDays < Int.fdiv (e - t) minutesPerDay →
        (rowActionsAgent py cfg (fieldMapAgent cols) row i t).filter
          (fun a => a.action == "MOT") = [])) := by
  have hpart := rowActions_mot_part py cfg (fieldMapAgent cols) row i t
  refine ⟨?_, ?_, ?_⟩
  · intro h
    unfold motExpiryAgent
    have hb : ((fieldMapAgent cols).motExp.isSome &&
        pdNotna (getCol row (fieldMapAgent cols).motExp)) = true := by
      rw [Bool.and_eq_true]; exact ⟨h.1, h.2⟩
    rw [if_pos hb]
  · intro hnone
    rw [hpart, hnone]
    rfl
  · intro e he
    rw [hpart, he]
    refine ⟨?_, ?_, ?_⟩
    · intro hlt
      simp [motActions, hlt]
    · intro h0 hdd
      have hlt : ¬ Int.fdiv (e - t) minutesPerDay < 0 := not_lt.2 h0
      simp [motActions, hlt, hdd]
    · intro hgt
      have hlt : ¬ Int.fdiv (e - t) minutesPerDay < 0 := by
        have := lt_of_le_of_lt hthr hgt
        omega
      have hdd : ¬ Int.fdiv (e - t) minutesPerDay ≤ cfg.dueDays := not_le.2 hgt
      simp [motActions, hlt, hdd]

/-- Roster columns for the C3 witness: explicit MOT expiry only. -/
def motCols : List String := ["reg", "mot expiry"]

/-- C3 witness row: explicit MOT expiry ten days after `t2021`. -/
def motRow : Row := fun h =>
  if h = "reg" then Cell.text "AB12CDE"
  else if h = "mot expiry" then Cell.date (t2021 + 10 * 1440)
  else Cell.none

/-- Witness for C3: an expiry 10 days out produces exactly the `Due soon`
MOT action with the "Expires in 10 days on 11 Jan 2021." reason. -/
theorem mot_decision_witness :
    (rowActionsAgent pyId cfgStd (fieldMapAgent motCols) motRow 0 t2021).filter
        (fun a => a.action == "MOT") =
      [{ vehicle := vehicleOf motRow (fieldMapAgent motCols).veh 0, action := "MOT",
         status := "Due soon",
         reason := "Expires in " ++ toString (Int.fdiv ((t2021 + 10 * 1440) - t2021) minutesPerDay) ++
           " days on " ++ fmtDMY (t2021 + 10 * 1440) ++ ".",
         recipient := recipientAgent cfgStd motRow (fieldMapAgent motCols).email,
         motExpiry := some (Int.fdiv (t2021 + 10 * 1440) minutesPerDay) }] :=
  (((mot_decision_correct pyId cfgStd motCols motRow 0 t2021 (by decide)).2.2
    (t2021 + 10 * 1440) (by decide)).2.1 (by decide) (by decide))

/-- Counterexample to C3 as stated: the explicit MOT-expiry cell holds
unparseable text while the last-MOT date parses and lies 10 days short of a
year before `t2021`; the claim's expiry chain (`motExpirySpec`, falling back
when the explicit field is unparseable) yields an expiry 10 days ahead and
hence predicts a `Due soon` action, but the classifier produces no action at
all. -/
theorem mot_fallback_counterexample :
    motExpirySpec pyId (fieldMapAgent cexCols) cexRow = some (daysFromCivil 2021 1 11 * 1440) ∧
    Int.fdiv (daysFromCivil 2021 1 11 * 1440 - t2021) minutesPerDay = 10 ∧
    think_actions pyId cfgStd cexCols [cexRow] t2021 = [] := by
  refine ⟨by decide, by decide, by decide⟩

/-! ## Fixtures for the act/dedup claims -/

/-- An SMTP environment with nothing configured and a network that would
succeed (the dry-run and missing-settings paths never reach it). -/
def smtpNone : SmtpEnv :=
  { host := Option.none, user := Option.none, password := Option.none,
    network := fun _ _ _ => Except.ok () }

/-- A concrete due action used by the act/dedup witnesses. -/
def wA : Action :=
  { vehicle := "V1", action := "Service", status := "Due",
    reason := "Overdue by 5 miles.", recipient := "ops@example.com",
    motExpiry := Option.none }

/-- A memory already holding `wA`'s fingerprint, recorded at time 0. -/
def storeW : Store :=
  fun k => if k = keyOf pyId wA then some (mkRecord wA 0) else Option.none

/-! ## C4 — the dedup check -/

/-- C4: a candidate action reaches the report/notifier if and only if no
stored record with its fingerprint has a sent timestamp strictly within the
suppression window before the pass instant. -/
theorem dedup_check_correct (py : Py) (smtp : SmtpEnv) (actions : List Action)
    (send : Bool) (store : Store) (t w : Int) (a : Action) (ha : a ∈ actions) :
    a ∈ (act py smtp actions send store t w).report ↔
      ¬∃ rec, store (keyOf py a) = some rec ∧ t - rec.sentAt < w * minutesPerDay := by
  rw [act_report_eq, report_eq_filter, List.mem_filter, ← shouldSendB_iff]
  simp [ha]

/-- Witness for C4: with an empty memory the action is sent. -/
theorem dedup_check_witness :
    wA ∈ (act pyId smtpNone [wA] false emptyStore 0 7).report :=
  (dedup_check_correct pyId smtpNone [wA] false emptyStore 0 7 wA (by decide)).2
    (fun h => Option.noConfusion h.choose_spec.1)

/-! ## C5 — the memory is written regardless of delivery outcome -/

/-- C5: every action that passes the dedup check gets its record upserted
with the pass timestamp — for every SMTP environment, network outcome and
send flag alike (success, failure, dry-run). -/
theorem record_always_upserts (py : Py) (smtp : SmtpEnv) (actions : List Action)
    (send : Bool) (store : Store) (t w : Int) (k : String) (a : Action)
    (h : (k, a) ∈ dedupFilter py store t w actions) :
    ∃ a2, (k, a2) ∈ dedupFilter py store t w actions ∧
      (act py smtp actions send store t w).store k = some (mkRecord a2 t) := by
  rw [act_store_eq_recordAll]
  have hk : k ∈ (dedupFilter py store t w actions).map (fun ka => ka.1) :=
    List.mem_map.2 ⟨(k, a), h, rfl⟩
  obtain ⟨a2, h2, hst⟩ := recordAll_mem hk
  exact ⟨a2, h2, hst⟩

/-- Witness for C5, in the dry-run/no-SMTP configuration. -/
theorem record_upsert_witness :
    ∃ a2, (keyOf pyId wA, a2) ∈ dedupFilter pyId emptyStore 0 7 [wA] ∧
      (act pyId smtpNone [wA] false emptyStore 0 7).store (keyOf pyId wA) =
        some (mkRecord a2 0) :=
  record_always_upserts pyId smtpNone [wA] false emptyStore 0 7 (keyOf pyId wA) wA
    (by decide)

/-! ## C9 — suppression does not refresh the stored record -/

/-- C9: when an action is suppressed (a record of its fingerprint is within
the window), the pass leaves that fingerprint's stored record — in
particular its `sent_at` — unchanged. -/
theorem suppressed_leaves_store (py : Py) (smtp : SmtpEnv) (actions : List Action)
    (send : Bool) (store : Store) (t w : Int) (a : Action) (rec0 : SentRecord)
    (ha : a ∈ actions) (hrec : store (keyOf py a) = some rec0)
    (hwin : t - rec0.sentAt < w * minutesPerDay) :
    (act py smtp actions send store t w).store (keyOf py a) = store (keyOf py a) := by
  rw [act_store_eq_recordAll]
  apply recordAll_not_mem
  intro hmem
  have hs := key_of_mem_dedupFilter hmem
  rw [shouldSendB_iff] at hs
  exact hs ⟨rec0, hrec, hwin⟩

/-- Witness for C9: `wA` recorded at time 0 and re-considered at time 1000
(within the 7-day window). -/
theorem suppressed_store_witness :
    (act pyId smtpNone [wA] false storeW 1000 7).store (keyOf pyId wA) =
      storeW (keyOf pyId wA) :=
  suppressed_leaves_store pyId smtpNone [wA] false storeW 1000 7 wA (mkRecord wA 0)
    (by decide) (by decide) (by decide)

/-! ## C6 — the report -/

/-- C6 (amended): the persisted report of a pass contains exactly the
actions that passed the dedup check, in order; suppressed actions are
omitted. -/
theorem report_contains_exactly_sent (py : Py) (smtp : SmtpEnv)
    (actions : List Action) (send : Bool) (store : Store) (t w : Int) :
    (act py smtp actions send store t w).report =
      actions.filter (fun a => shouldSendB store t w (keyOf py a)) := by
  rw [act_report_eq, report_eq_filter]

/-- Counterexample to C6 as stated: `wA` is considered by the pass (it is
the sole candidate) but is suppressed, and the persisted report is empty
rather than containing it. -/
theorem report_omits_suppressed_counterexample :
    wA ∈ [wA] ∧ (act pyId smtpNone [wA] false storeW 1000 7).report = [] := by
  refine ⟨by decide, by decide⟩

/-! ## C1 — idempotence of two immediate passes -/

/-- C1: two passes in immediate succession over an unchanged roster with a
shared memory: every action emitted (sent or dry-run-logged) by the first
pass is suppressed by the dedup check in the second, and when the first
pass's candidates have distinct fingerprints each action is emitted at most
once across both passes. -/
theorem run_twice_idempotent (py : Py) (cfg : AgentCfg) (smtp1 smtp2 : SmtpEnv)
    (cols : List String) (rows : List Row) (send1 send2 : Bool) (store : Store)
    (t1 t2 w : Int) (acts1 acts2 : List Action) (r1 r2 : ActResult)
    (hacts1 : acts1 = think_actions py cfg cols rows t1)
    (hacts2 : acts2 = think_actions py cfg cols rows t2)
    (hsame : acts2 = acts1)
    (hr1 : r1 = act py smtp1 acts1 send1 store t1 w)
    (hr2 : r2 = act py smtp2 acts2 send2 r1.store t2 w)
    (h0 : 0 ≤ t2 - t1) (hw : t2 - t1 < w * minutesPerDay) :
    (∀ a, a ∈ r1.report → a ∉ r2.report) ∧
    ((acts1.map (keyOf py)).Nodup → ∀ a, (r1.report ++ r2.report).count a ≤ 1) := by
  subst hr2
  subst hr1
  have hsame2 := hsame.symm
  subst hsame2
  have main : ∀ a, a ∈ (act py smtp1 acts1 send1 store t1 w).report →
      a ∉ (act py smtp2 acts1 send2 (act py smtp1 acts1 send1 store t1 w).store t2 w).report := by
    intro a ha1 ha2
    rw [act_report_eq, report_eq_filter, List.mem_filter] at ha1 ha2
    have hk1 : keyOf py a ∈ (dedupFilter py store t1 w acts1).map (fun ka => ka.1) :=
      List.mem_map.2 ⟨(keyOf py a, a), mem_dedupFilter.2 ⟨ha1.1, rfl, ha1.2⟩, rfl⟩
    obtain ⟨a2, -, hst⟩ := @recordAll_mem _ store t1 _ hk1
    have hs2 := ha2.2
    rw [shouldSendB_iff] at hs2
    refine hs2 ⟨mkRecord a2 t1, ?_, ?_⟩
    · rw [act_store_eq_recordAll]; exact hst
    · simpa [mkRecord] using hw
  refine ⟨main, ?_⟩
  intro hnd a
  have hclean : acts1.Nodup := hnd.of_map
  have hcnt : acts1.count a ≤ 1 := List.nodup_iff_count_le_one.1 hclean a
  have hsub1 : (act py smtp1 acts1 send1 store t1 w).report.Sublist acts1 := by
    rw [act_report_eq, report_eq_filter]; exact List.filter_sublist _
  have hsub2 : (act py smtp2 acts1 send2 (act py smtp1 acts1 send1 store t1 w).store t2 w).report.Sublist acts1 := by
    rw [act_report_eq, report_eq_filter]; exact List.filter_sublist _
  rw [List.count_append]
  by_cases hmem : a ∈ (act py smtp1 acts1 send1 store t1 w).report
  · have h2 := main a hmem
    rw [List.count_eq_zero_of_not_mem h2]
    have := hsub1.count_le a
    omega
  · rw [List.count_eq_zero_of_not_mem hmem]
    have := hsub2.count_le a
    omega

/-- Witness for C1: the spec's Service example roster passed twice (times 0
and 1, window 7 days) over an initially empty memory. -/
theorem run_twice_witness :
    (∀ a, a ∈ (act pyId smtpNone (think_actions pyId cfgStd svcCols [svcRow] 0)
        false emptyStore 0 7).report →
      a ∉ (act pyId smtpNone (think_actions pyId cfgStd svcCols [svcRow] 0) false
        (act pyId smtpNone (think_actions pyId cfgStd svcCols [svcRow] 0)
          false emptyStore 0 7).store 1 7).report) ∧
    (((think_actions pyId cfgStd svcCols [svcRow] 0).map (keyOf pyId)).Nodup →
      ∀ a, ((act pyId smtpNone (think_actions pyId cfgStd svcCols [svcRow] 0)
          false emptyStore 0 7).report ++
        (act pyId smtpNone (think_actions pyId cfgStd svcCols [svcRow] 0) false
          (act pyId smtpNone (think_actions pyId cfgStd svcCols [svcRow] 0)
            false emptyStore 0 7).store 1 7).report).count a ≤ 1) :=
  run_twice_idempotent pyId cfgStd smtpNone smtpNone svcCols [svcRow] false false
    emptyStore 0 1 7 (think_actions pyId cfgStd svcCols [svcRow] 0)
    (think_actions pyId cfgStd svcCols [svcRow] 0)
    (act pyId smtpNone (think_actions pyId cfgStd svcCols [svcRow] 0) false emptyStore 0 7)
    (act pyId smtpNone (think_actions pyId cfgStd svcCols [svcRow] 0) false
      (act pyId smtpNone (think_actions pyId cfgStd svcCols [svcRow] 0)
        false emptyStore 0 7).store 1 7)
    rfl (by decide) rfl rfl rfl (by decide) (by decide)

/-! ## C7 — the fingerprint -/

theorem string_of_data {x y : String} (h : x.data = y.data) : x = y := by
  cases x; cases y; exact congrArg String.mk h

/-- The guard `mot_expiry or ''` is the identity on strings, so the digest input
flattens to the plain `|`-join. -/
theorem hashBase_flat (v a s r m c : String) :
    hashBase v a s r m c = v ++ "|" ++ a ++ "|" ++ s ++ "|" ++ r ++ "|" ++ m ++ "|" ++ c := by
  unfold hashBase
  by_cases h : m = ""
  · rw [if_pos h, h]
  · rw [if_neg h]

theorem hashBase_data (v a s r m c : String) :
    (hashBase v a s r m c).data =
      v.data ++ ("|".data ++ (a.data ++ ("|".data ++ (s.data ++ ("|".data ++
        (r.data ++ ("|".data ++ (m.data ++ ("|".data ++ c.data))))))))) := by
  rw [hashBase_flat]
  simp only [String.data_append, List.append_assoc]

theorem hashBase_inj1 {v v2 a s r m c : String}
    (h : hashBase v a s r m c = hashBase v2 a s r m c) : v = v2 := by
  have hd := congrArg String.data h
  rw [hashBase_data, hashBase_data] at hd
  exact string_of_data (List.append_cancel_right hd)

theorem hashBase_inj2 {v a a2 s r m c : String}
    (h : hashBase v a s r m c = hashBase v a2 s r m c) : a = a2 := by
  have hd := congrArg String.data h
  rw [hashBase_data, hashBase_data] at hd
  exact string_of_data (List.append_cancel_right
    (List.append_cancel_left (List.append_cancel_left hd)))

theorem hashBase_inj3 {v a s s2 r m c : String}
    (h : hashBase v a s r m c = hashBase v a s2 r m c) : s = s2 := by
  have hd := congrArg String.data h
  rw [hashBase_data, hashBase_data] at hd
  exact string_of_data (List.append_cancel_right
    (List.append_cancel_left (List.append_cancel_left
      (List.append_cancel_left (List.append_cancel_left hd)))))

theorem hashBase_inj4 {v a s r r2 m c : String}
    (h : hashBase v a s r m c = hashBase v a s r2 m c) : r = r2 := by
  have hd := congrArg String.data h
  rw [hashBase_data, hashBase_data] at hd
  exact string_of_data (List.append_cancel_right
    (List.append_cancel_left (List.append_cancel_left
      (List.append_cancel_left (List.append_cancel_left
        (List.append_cancel_left (List.append_cancel_left hd)))))))

theorem hashBase_inj5 {v a s r m m2 c : String}
    (h : hashBase v a s r m c = hashBase v a s r m2 c) : m = m2 := by
  have hd := congrArg String.data h
  rw [hashBase_data, hashBase_data] at hd
  exact string_of_data (List.append_cancel_right
    (List.append_cancel_left (List.append_cancel_left
      (List.append_cancel_left (List.append_cancel_left
        (List.append_cancel_left (List.append_cancel_left
          (List.append_cancel_left (List.append_cancel_left hd)))))))))

theorem hashBase_inj6 {v a s r m c c2 : String}
    (h : hashBase v a s r m c = hashBase v a s r m c2) : c = c2 := by
  have hd := congrArg String.data h
  rw [hashBase_data, hashBase_data] at hd
  exact string_of_data
    (List.append_cancel_left (List.append_cancel_left
      (List.append_cancel_left (List.append_cancel_left
        (List.append_cancel_left (List.append_cancel_left
          (List.append_cancel_left (List.append_cancel_left
            (List.append_cancel_left (List.append_cancel_left hd))))))))))

/-- C7: `hash_action` is a pure function of its six inputs — identical tuples
give identical fingerprints, and (for an injective digest, SHA-256 modelled
collision-free) changing any single input while the other five are held
fixed changes the fingerprint, because the `|`-joined digest input is
injective in each field separately. -/
theorem fingerprint_injective (py : Py) (hinj : Function.Injective py.sha256hex)
    (v a s r m c : String) :
    hash_action py v a s r m c = hash_action py v a s r m c ∧
    (∀ v2, v2 ≠ v → hash_action py v2 a s r m c ≠ hash_action py v a s r m c) ∧
    (∀ a2, a2 ≠ a → hash_action py v a2 s r m c ≠ hash_action py v a s r m c) ∧
    (∀ s2, s2 ≠ s → hash_action py v a s2 r m c ≠ hash_action py v a s r m c) ∧
    (∀ r2, r2 ≠ r → hash_action py v a s r2 m c ≠ hash_action py v a s r m c) ∧
    (∀ m2, m2 ≠ m → hash_action py v a s r m2 c ≠ hash_action py v a s r m c) ∧
    (∀ c2, c2 ≠ c → hash_action py v a s r m c2 ≠ hash_action py v a s r m c) := by
  refine ⟨rfl, ?_, ?_, ?_, ?_, ?_, ?_⟩
  · exact fun v2 hne h => hne (hashBase_inj1 (hinj h))
  · exact fun a2 hne h => hne (hashBase_inj2 (hinj h))
  · exact fun s2 hne h => hne (hashBase_inj3 (hinj h))
  · exact fun r2 hne h => hne (hashBase_inj4 (hinj h))
  · exact fun m2 hne h => hne (hashBase_inj5 (hinj h))
  · exact fun c2 hne h => hne (hashBase_inj6 (hinj h))

/-- Witness for C7 with the identity digest (injective): two vehicles, same
other five fields, distinct fingerprints. -/
theorem fingerprint_witness :
    hash_action pyId "V1" "Service" "Due" "Overdue by 5 miles." "" "ops@example.com" ≠
      hash_action pyId "V2" "Service" "Due" "Overdue by 5 miles." "" "ops@example.com" :=
  (fingerprint_injective pyId (fun _ _ h => h) "V2" "Service" "Due" "Overdue by 5 miles."
    "" "ops@example.com").2.1 "V1" (by decide)

/-! ## C8 — unresolvable recipient -/

/-- Every action a row contributes carries that row's resolved recipient. -/
theorem rowActionsAgent_recipient {py : Py} {cfg : AgentCfg} {fm : FieldMap}
    {row : Row} {i : Nat} {t : Int} {a : Action}
    (h : a ∈ rowActionsAgent py cfg fm row i t) :
    a.recipient = recipientAgent cfg row fm.email := by
  unfold rowActionsAgent at h
  rcases List.mem_append.1 h with h | h
  · by_cases hd : (serviceAgent py fm row cfg.dueMiles).1
    · simp only [hd, if_true, List.mem_singleton] at h
      subst h; rfl
    · simp only [hd, Bool.false_eq_true, if_false] at h
      exact absurd h (List.not_mem_nil a)
  · unfold motActions at h
    cases he : motExpiryAgent py fm row with
    | none => rw [he] at h; exact absurd h (List.not_mem_nil a)
    | some e =>
      rw [he] at h
      by_cases h1 : Int.fdiv (e - t) minutesPerDay < 0
      · simp only [h1, if_true, List.mem_singleton] at h
        subst h; rfl
      · simp only [h1, if_false] at h
        by_cases h2 : Int.fdiv (e - t) minutesPerDay ≤ cfg.dueDays
        · simp only [h2, if_true, List.mem_singleton] at h
          subst h; rfl
        · simp only [h2, if_false] at h
          exact absurd h (List.not_mem_nil a)

/-- C8 (amended): when a row has no resolvable recipient (no email column
resolved and no default configured) the agent substitutes the hardcoded
fallback address, so every action of such a roster still carries a
recipient; the action is produced with the others, and whenever it passes
the dedup check its attempt is still recorded with the pass timestamp —
delivery failure, if any, is an SMTP-level matter (see the counterexample
for the failure message's content). -/
theorem missing_recipient_fallback (py : Py) (cfg : AgentCfg) (cols : List String)
    (rows : List Row) (t : Int) (smtp : SmtpEnv) (send : Bool) (store : Store)
    (w : Int) (a : Action)
    (hdef : cfg.emailDefaultTo = Option.none)
    (hemail : (fieldMapAgent cols).email = Option.none)
    (ha : a ∈ think_actions py cfg cols rows t) :
    a.recipient = "fleet.manager@example.com" ∧
    (shouldSendB store t w (keyOf py a) = true →
      ∃ rec, (act py smtp (think_actions py cfg cols rows t) send store t w).store
          (keyOf py a) = some rec ∧ rec.sentAt = t) := by
  constructor
  · unfold think_actions at ha
    rw [List.mem_flatMap] at ha
    obtain ⟨p, -, hrow⟩ := ha
    rw [rowActionsAgent_recipient hrow, hemail, recipientAgent.eq_def, hdef]
    rfl
  · intro hs
    rw [act_store_eq_recordAll]
    have hk : keyOf py a ∈
        (dedupFilter py store t w (think_actions py cfg cols rows t)).map (fun ka => ka.1) :=
      List.mem_map.2 ⟨(keyOf py a, a), mem_dedupFilter.2 ⟨ha, rfl, hs⟩, rfl⟩
    obtain ⟨a2, -, hst⟩ := recordAll_mem hk
    exact ⟨mkRecord a2 t, hst, rfl⟩

/-- Roster for the C8 witness/counterexample: no email column at all. -/
def c8Cols : List String := ["reg", "miles_to_service"]

def c8Row : Row := fun h =>
  if h = "reg" then Cell.text "V8"
  else if h = "miles_to_service" then Cell.num 100
  else Cell.none

/-- The action `c8Row` produces. -/
def c8Act : Action :=
  { vehicle := "V8", action := "Service", status := "Due soon",
    reason := "Within 100 miles of service.",
    recipient := "fleet.manager@example.com", motExpiry := Option.none }

/-- Witness for C8 (amended): no email column, no default — the produced
action carries the fallback recipient and its attempt is recorded. -/
theorem missing_recipient_witness :
    c8Act.recipient = "fleet.manager@example.com" ∧
    (∃ rec, (act pyId smtpNone (think_actions pyId cfgStd c8Cols [c8Row] 0)
        false emptyStore 0 7).store (keyOf pyId c8Act) = some rec ∧ rec.sentAt = 0) :=
  ⟨(missing_recipient_fallback pyId cfgStd c8Cols [c8Row] 0 smtpNone false emptyStore 7
      c8Act rfl (by decide) (by decide)).1,
   (missing_recipient_fallback pyId cfgStd c8Cols [c8Row] 0 smtpNone false emptyStore 7
      c8Act rfl (by decide) (by decide)).2 (by decide)⟩

/-- A fully configured SMTP environment whose network send succeeds. -/
def smtpFull : SmtpEnv :=
  { host := some "smtp.example.com", user := some "u", password := some "p",
    network := fun _ _ _ => Except.ok () }

/-- Counterexample to C8 as stated: with no row recipient and no configured
default, the recipient is not missing — the hardcoded fallback address is
used, delivery to it succeeds when SMTP is configured, and when SMTP is not
configured the failure message names the SMTP settings, not a missing
recipient. -/
theorem missing_recipient_counterexample :
    recipientAgent cfgStd c8Row (fieldMapAgent c8Cols).email = "fleet.manager@example.com" ∧
    send_mail smtpFull "fleet.manager@example.com" "subject" "body" = Except.ok () ∧
    send_mail smtpNone "fleet.manager@example.com" "subject" "body" =
      Except.error "SMTP env vars not fully set (SMTP_HOST, SMTP_USER, SMTP_PASS required)." := by
  refine ⟨by decide, rfl, rfl⟩

/-! ## C10 — dashboard vs agent classifier -/

/-- Row-wise agreement between the two classifiers' actions: same vehicle,
kind, status, recipient and MOT expiry, and the same reason for MOT actions
(Service reasons may carry extra per-rule detail in the agent). -/
def actSimilar (a b : Action) : Prop :=
  a.vehicle = b.vehicle ∧ a.action = b.action ∧ a.status = b.status ∧
  a.recipient = b.recipient ∧ a.motExpiry = b.motExpiry ∧
  (a.action = "MOT" → a.reason = b.reason)

theorem actSimilar_refl (a : Action) : actSimilar a a :=
  ⟨rfl, rfl, rfl, rfl, rfl, fun _ => rfl⟩

theorem forall₂_flatMap {α β γ : Type} (R : β → γ → Prop) (l : List α)
    (f : α → List β) (g : α → List γ)
    (h : ∀ x ∈ l, List.Forall₂ R (f x) (g x)) :
    List.Forall₂ R (l.flatMap f) (l.flatMap g) := by
  induction l with
  | nil => exact List.Forall₂.nil
  | cons x tl ih =>
    simp only [List.flatMap_cons]
    exact List.rel_append (h x (List.mem_cons_self ..))
      (ih (fun y hy => h y (List.mem_cons_of_mem _ hy)))

/-- Given the same resolved field map, the same thresholds and the same
resolved default recipient, each roster row contributes action lists related
pointwise by `actSimilar`. -/
theorem rowActions_similar (py : Py) (cfg : AgentCfg) (dflt : String)
    (fm : FieldMap) (row : Row) (i : Nat) (t : Int)
    (hdflt : cfg.emailDefaultTo.getD "fleet.manager@example.com" = dflt) :
    List.Forall₂ actSimilar (rowActionsAgent py cfg fm row i t)
      (rowActionsApp py dflt fm row i cfg.dueMiles cfg.dueDays t) := by
  have hrcpt : (match fm.email with
      | some c => if pdNotna (row c) then pyStr (row c) else dflt
      | Option.none => dflt) = recipientAgent cfg row fm.email := by
    cases fm.email with
    | none => simp [recipientAgent, hdflt]
    | some c => by_cases hn : pdNotna (row c) <;> simp [recipientAgent, hn, hdflt]
  have hag := serviceAgent_classify py fm row cfg.dueMiles
  have hap := serviceApp_classify py fm row cfg.dueMiles
  have hdue : (serviceAgent py fm row cfg.dueMiles).1 =
      (serviceApp py fm row cfg.dueMiles).1 := by
    have h1 := congrArg Prod.fst hag
    have h2 := congrArg Prod.fst hap
    simp only at h1 h2
    rw [h1, h2]
  have hst : (serviceAgent py fm row cfg.dueMiles).2.1 =
      (serviceApp py fm row cfg.dueMiles).2.1 := by
    have h1 := congrArg Prod.snd hag
    have h2 := congrArg Prod.snd hap
    simp only at h1 h2
    rw [h1, h2]
  unfold rowActionsAgent rowActionsApp
  rw [hrcpt]
  apply List.rel_append
  · by_cases hd : (serviceAgent py fm row cfg.dueMiles).1
    · have hd2 : (serviceApp py fm row cfg.dueMiles).1 = true := hdue ▸ hd
      rw [if_pos hd, if_pos hd2]
      exact List.Forall₂.cons
        ⟨rfl, rfl, hst, rfl, rfl, fun habs => by simp at habs⟩
        List.Forall₂.nil
    · have hd2 : ¬ (serviceApp py fm row cfg.dueMiles).1 = true := by
        rw [← hdue]; exact hd
      rw [if_neg hd, if_neg hd2]
      exact List.Forall₂.nil
  · exact List.forall₂_same.2 (fun x _ => actSimilar_refl x)

/-- C10 (amended): at the same evaluation instant, with the same thresholds
and the same resolved default recipient, and provided the two column
resolvers agree on every canonical field, the dashboard and agent
classifiers produce action sequences of equal length agreeing pairwise on
vehicle, kind, status, recipient and MOT expiry, and on the reason text of
MOT actions; Service reasons may differ in wording (the agent's rules 2 and
3 add per-rule detail). -/
theorem classifiers_agree (py : Py) (cfg : AgentCfg) (dflt : String)
    (cols : List String) (rows : List Row) (dm dd t : Int)
    (hfm : fieldMapApp cols = fieldMapAgent cols)
    (hdm : cfg.dueMiles = dm) (hdd : cfg.dueDays = dd)
    (hdflt : cfg.emailDefaultTo.getD "fleet.manager@example.com" = dflt) :
    List.Forall₂ actSimilar (think_actions py cfg cols rows t)
      (think_actions_app py dflt cols rows dm dd t) := by
  subst hdm hdd
  unfold think_actions think_actions_app
  rw [hfm]
  exact forall₂_flatMap _ _ _ _
    (fun p _ => rowActions_similar py cfg dflt (fieldMapAgent cols) p.2 p.1 t hdflt)

/-- Witness for C10 (amended) on the spec's Service example roster, where
both resolvers agree on every field. -/
theorem classifiers_agree_witness :
    List.Forall₂ actSimilar (think_actions pyId cfgStd svcCols [svcRow] 0)
      (think_actions_app pyId "fleet.manager@example.com" svcCols [svcRow] 500 30 0) :=
  classifiers_agree pyId cfgStd "fleet.manager@example.com" svcCols [svcRow] 500 30 0
    (by decide) rfl rfl rfl

/-- Roster on which the two resolvers disagree: both MOT-expiry aliases are
present, and the two `pick`s prioritize them differently. -/
def c10Cols : List String := ["reg", "mot expiry", "mot date required"]

def c10Row : Row := fun h =>
  if h = "reg" then Cell.text "X"
  else if h = "mot expiry" then Cell.date (t2021 + 10 * 1440)
  else if h = "mot date required" then Cell.date (t2021 + 1000 * 1440)
  else Cell.none

/-- Roster for the Service-reason divergence (same resolution both sides). -/
def c10sCols : List String := ["reg", "current mileage", "service mileage due at"]

def c10sRow : Row := fun h =>
  if h = "reg" then Cell.text "Y"
  else if h = "current mileage" then Cell.num 9900
  else if h = "service mileage due at" then Cell.num 10000
  else Cell.none

/-- Counterexample to C10 as stated: (i) with both MOT-expiry aliases
present the agent reads `"mot expiry"` (10 days out → one action) while the
dashboard reads `"mot date required"` (1000 days out → none), so the very
sequences differ; (ii) even when resolution agrees, a rule-2 Service action
carries different reason strings in the two programs. -/
theorem classifiers_disagree_counterexample :
    (think_actions pyId cfgStd c10Cols [c10Row] t2021).length = 1 ∧
    (think_actions_app pyId "fleet.manager@example.com" c10Cols [c10Row] 500 30 t2021).length = 0 ∧
    (think_actions pyId cfgStd c10sCols [c10sRow] t2021).map (fun a => a.reason) =
      ["Within 100 miles (due at 10000, current 9900)."] ∧
    (think_actions_app pyId "fleet.manager@example.com" c10sCols [c10sRow] 500 30 t2021).map
        (fun a => a.reason) =
      ["Within 100 miles of service."] := by
  refine ⟨by decide, by decide, by decide, by decide⟩

end Fleet
